import Mathlib

/-!
Verification development for the video-content-creation-agent frontend.

The definitions below are a shallow embedding of the task-lifecycle /
polling / editor / export logic of
`src/frontend/components/video-editor.tsx` and
`src/frontend/components/video-studio-dashboard.tsx`.
Effectful React code is modelled as explicit state passing: each polling
callback becomes a function from the captured component state and the
(optional) fetch response to the new component state plus a record of the
externally visible effects it produced (requests issued, toasts shown,
errors logged).  A fetch that fails (network error or non-ok response,
which the code turns into a thrown and then caught exception) is modelled
by the response argument being `none`.
JavaScript strings are modelled as Lean `String`; the truthiness test on a
nullable string field is `Option String` being `some` of a nonempty
string.
-/

namespace VideoStudio

/-- The `Shot` interface of `video-editor.tsx` (lines 24-37).  The
`mood`/`timestamp`/`special_effects` presentation fields are carried along
unchanged; optional fields of the TypeScript interface become `Option`. -/
structure Shot where
  mood : String
  order : Nat
  captions : List String
  ai_prompt : String
  timestamp : String
  video_url : String
  voiceover_url : String
  special_effects : List String
  voiceover_script : String
  video_status : Option String
  audio_status : Option String
  starting_image_url : Option String
deriving DecidableEq, Repr

/-- One keyframe of an export track, as assembled by `handleExportVideo`
(`video-editor.tsx` lines 744-777).  Timestamps and durations are in
milliseconds. -/
structure Keyframe where
  timestamp : Nat
  duration : Nat
  url : String
deriving DecidableEq, Repr

/-- One track of the export request body. -/
structure Track where
  id : String
  type : String
  keyframes : List Keyframe
deriving DecidableEq, Repr

/-- The video track built by `handleExportVideo` (lines 744-752):
`shots.map((shot, index) => ({ timestamp: index * 5000, duration: 5000,
url: shot.video_url }))`.  Note the use of the array index. -/
def videoTrack (shots : List Shot) : Track :=
  { id := "video-track"
    type := "video"
    keyframes := shots.enum.map fun p =>
      { timestamp := p.1 * 5000, duration := 5000, url := p.2.video_url } }

/-- The voiceover track built by `handleExportVideo` (lines 754-763); the
voiceover url is prefixed with the API base url. -/
def voiceoverTrack (apiUrl : String) (shots : List Shot) : Track :=
  { id := "voiceover-track"
    type := "audio"
    keyframes := shots.enum.map fun p =>
      { timestamp := p.1 * 5000, duration := 5000, url := apiUrl ++ p.2.voiceover_url } }

/-- The background-music track (lines 767-777): a single keyframe at
timestamp 0 spanning `shots.length * 5000` milliseconds. -/
def backgroundMusicTrack (shots : List Shot) (url : String) : Track :=
  { id := "background-music"
    type := "audio"
    keyframes := [{ timestamp := 0, duration := shots.length * 5000, url := url }] }

/-- The full track list submitted by `handleExportVideo` (lines 766-777,
786): video track, voiceover track, then the music track exactly when
`task.background_music_url` is truthy (non-null and nonempty). -/
def exportTracks (apiUrl : String) (shots : List Shot)
    (backgroundMusicUrl : Option String) : List Track :=
  let tracks := [videoTrack shots, voiceoverTrack apiUrl shots]
  match backgroundMusicUrl with
  | some url => if url = "" then tracks else tracks ++ [backgroundMusicTrack shots url]
  | none => tracks

/-! ## Dashboard task polling (`video-studio-dashboard.tsx`) -/

/-- A dashboard task record, with the fields the polling logic reads
(`VideoTask` interface, lines 24-43; the code keys tasks by `id`). -/
structure DashTask where
  id : String
  status : String
  progress : Nat
deriving DecidableEq, Repr

/-- The non-terminal status filter of `checkAndUpdateTasks`
(lines 117-119). -/
def isIncompleteStatus (s : String) : Bool :=
  s = "PENDING" || s = "IN_PROGRESS" || s = "PROCESSING" ||
    s = "GENERATING_SCRIPT" || s = "GENERATING_MEDIA"

/-- Terminal statuses, as tested at lines 152 and 174. -/
def isTerminalStatus (s : String) : Bool :=
  s = "COMPLETED" || s = "FAILED"

/-- The task status enumeration of the data model (spec section 3). -/
def validStatuses : List String :=
  ["PENDING", "IN_PROGRESS", "PROCESSING", "GENERATING_SCRIPT",
   "GENERATING_MEDIA", "COMPLETED", "FAILED"]

/-- One step of the merge loop of `checkAndUpdateTasks` (lines 142-147):
`const index = updatedTasks.findIndex(t => t.id === updatedTask.id);
if (index !== -1) updatedTasks[index] = updatedTask`. -/
def replaceById (ts : List DashTask) (u : DashTask) : List DashTask :=
  match ts.findIdx? (fun t => t.id = u.id) with
  | some i => ts.set i u
  | none => ts

/-- The bulk-status merge of `checkAndUpdateTasks` (lines 140-149): each
task of the response replaces the first local task with the same id. -/
def mergeTasks (prev data : List DashTask) : List DashTask :=
  data.foldl replaceById prev

/-- Dashboard component state touched by the polling loop:
`tasks`, `hasIncompleteTask`, and whether `pollingInterval.current`
holds a scheduled interval. -/
structure DashboardState where
  tasks : List DashTask
  hasIncompleteTask : Bool
  pollingActive : Bool
deriving DecidableEq, Repr

/-- Result of one dashboard polling tick: the new state, whether a
bulk-status fetch was issued, and whether a caught error was logged. -/
structure DashTickResult where
  state : DashboardState
  fetched : Bool
  loggedError : Bool
deriving DecidableEq, Repr

/-- One tick of `checkAndUpdateTasks` (lines 115-169).  `response` is the
parsed bulk-status response, `none` when the fetch failed or returned a
non-ok status (the thrown error is caught at line 166 and only logged).
With no incomplete task the callback fetches nothing and clears the
interval (lines 160-165); otherwise it fetches, merges the response into
the local list, and clears the interval exactly when every task in the
response is terminal (lines 151-158). -/
def checkAndUpdateTasks (s : DashboardState) (response : Option (List DashTask)) :
    DashTickResult :=
  let incompleteTasks := s.tasks.filter (fun t => isIncompleteStatus t.status)
  if incompleteTasks.isEmpty then
    { state := { s with hasIncompleteTask := false, pollingActive := false }
      fetched := false, loggedError := false }
  else
    match response with
    | none =>
        { state := { s with hasIncompleteTask := true }
          fetched := true, loggedError := true }
    | some data =>
        let tasks := mergeTasks s.tasks data
        let allComplete := data.all (fun t => isTerminalStatus t.status)
        if allComplete then
          { state := { tasks := tasks, hasIncompleteTask := false, pollingActive := false }
            fetched := true, loggedError := false }
        else
          { state := { tasks := tasks, hasIncompleteTask := true,
                       pollingActive := s.pollingActive }
            fetched := true, loggedError := false }

/-- The polling-setup effect (lines 173-196): whenever `tasks` changes it
restarts the interval if some task is non-terminal and clears it
otherwise. -/
def syncPollingEffect (s : DashboardState) : DashboardState :=
  let incompleteTasks := s.tasks.filter (fun t => !isTerminalStatus t.status)
  if incompleteTasks.isEmpty then
    { s with hasIncompleteTask := false, pollingActive := false }
  else
    { s with hasIncompleteTask := true, pollingActive := true }

/-! ## Editor state and shot-regeneration polling (`video-editor.tsx`) -/

/-- Whether a shot is mid-regeneration, as tested by `checkShotStatus`
(lines 455-458). -/
def shotRegenerating (shot : Shot) : Bool :=
  shot.video_status = some "regenerating" || shot.audio_status = some "regenerating"

/-- Editor component state touched by the shot-status polling loop. -/
structure EditorState where
  shots : List Shot
  selectedShot : Option Shot
  hasRegeneratingShot : Bool
  pollingActive : Bool
deriving DecidableEq, Repr

/-- The shared `setShots`/`setSelectedShot` update used after every
single-shot mutation response (`checkShotStatus` lines 460-466,
`handleGenerateImage` lines 521-526, `handleCaptionUpdate` lines
648-655): the shot list is replaced wholesale by the response's shots,
and the selected shot is re-resolved by its `order`. -/
def applyTaskResponseShots (s : EditorState) (updatedShots : List Shot) : EditorState :=
  { s with
    shots := updatedShots
    selectedShot :=
      match s.selectedShot with
      | some sel =>
          match updatedShots.find? (fun sh => sh.order = sel.order) with
          | some updated => some updated
          | none => some sel
      | none => none }

/-- Result of one shot-status polling tick. -/
structure ShotTickResult where
  state : EditorState
  loggedError : Bool
  toastSuccess : Bool
deriving DecidableEq, Repr

/-- One tick of `checkShotStatus` (lines 447-478).  `response` is
`data.shots` of the fetched task, `none` when the fetch failed (caught at
lines 475-478: the error is logged and the interval is left running).
When no shot is still `regenerating` the interval is cleared, if it was
running, and a success toast is shown (lines 470-473). -/
def checkShotStatus (s : EditorState) (response : Option (List Shot)) :
    ShotTickResult :=
  match response with
  | none => { state := s, loggedError := true, toastSuccess := false }
  | some updatedShots =>
      let hasIncomplete := updatedShots.any shotRegenerating
      let s1 := applyTaskResponseShots s updatedShots
      let s2 := { s1 with hasRegeneratingShot := hasIncomplete }
      if !hasIncomplete && s.pollingActive then
        { state := { s2 with pollingActive := false }
          loggedError := false, toastSuccess := true }
      else
        { state := s2, loggedError := false, toastSuccess := false }

/-! ## Shot edits: regeneration requests and caption updates -/

/-- The four edit kinds of the editor dialog (`editType`, line 362). -/
inductive EditType
  | video
  | audio
  | caption
  | image
deriving DecidableEq, Repr

/-- Trimming as performed by JavaScript `String.prototype.trim`:
whitespace is stripped from both ends (the whitespace set is modelled by
`Char.isWhitespace`). -/
def jsTrimChars (l : List Char) : List Char :=
  ((l.dropWhile Char.isWhitespace).reverse.dropWhile Char.isWhitespace).reverse

/-- `String` version of `jsTrimChars`. -/
def jsTrim (s : String) : String :=
  ⟨jsTrimChars s.data⟩

/-- The caption list built by `handleCaptionUpdate` (line 628):
`editPrompt.split(newline).filter(caption => caption.trim())` — the lines
of the input whose trim is truthy, i.e. nonempty. -/
def newCaptions (editPrompt : String) : List String :=
  (editPrompt.splitOn "\n").filter (fun caption => jsTrim caption != "")

/-- Body of the `update-captions` PUT request (lines 636-639). -/
structure CaptionUpdateRequest where
  shotOrder : Nat
  captions : List String
deriving DecidableEq, Repr

/-- Body of the `regenerate-shot` POST request (lines 588-597). -/
structure RegenRequest where
  shot_order : Nat
  regenerate_video : Bool
  regenerate_audio : Bool
  new_video_prompt : Option String
  new_voiceover_text : Option String
  new_voiceover_url : Option String
  starting_image_url : Option String
deriving DecidableEq, Repr

/-- The backend request issued by one shot edit. -/
inductive EditRequest
  | captionUpdate (req : CaptionUpdateRequest)
  | regenerate (req : RegenRequest)
deriving DecidableEq, Repr

/-- Externally visible outcome of `handleRegenerate`. -/
structure RegenOutcome where
  request : EditRequest
  startedPolling : Bool
deriving DecidableEq, Repr

/-- The `regenerate-shot` body assembled at lines 588-597 for a
non-caption edit. -/
def regenRequestBody (editType : EditType) (shotOrder : Nat) (editPrompt : String)
    (voiceoverUrl startingImageUrl : Option String) : RegenRequest :=
  { shot_order := shotOrder
    regenerate_video := editType = EditType.video || editType = EditType.image
    regenerate_audio := editType = EditType.audio
    new_video_prompt := if editType = EditType.video then some editPrompt else none
    new_voiceover_text := if editType = EditType.audio then some editPrompt else none
    new_voiceover_url := voiceoverUrl
    starting_image_url := startingImageUrl }

/-- `handleRegenerate` (lines 556-619), on the path where a request is
issued.  A caption edit is routed to `handleCaptionUpdate` (lines
560-563): one synchronous `update-captions` PUT and never any polling.
Every other edit posts a `regenerate-shot` request and, when the request
succeeds (`requestOk`), restarts the shot-status polling interval (lines
606-609); on failure the interval is not started. -/
def handleRegenerate (editType : EditType) (shotOrder : Nat) (editPrompt : String)
    (voiceoverUrl startingImageUrl : Option String) (requestOk : Bool) : RegenOutcome :=
  match editType with
  | EditType.caption =>
      { request := EditRequest.captionUpdate
          { shotOrder := shotOrder, captions := newCaptions editPrompt }
        startedPolling := false }
  | t =>
      { request := EditRequest.regenerate
          (regenRequestBody t shotOrder editPrompt voiceoverUrl startingImageUrl)
        startedPolling := requestOk }

/-! ## Export polling, export dialog (`video-editor.tsx`) -/

/-- The parsed body of an export-status response (`checkExportStatus`,
lines 706-729). -/
structure ExportStatusResponse where
  status : String
  video_url : Option String
  error : Option String
deriving DecidableEq, Repr

/-- Editor state touched by the export flow. -/
structure ExportState where
  exportStatus : Option String
  exportedVideoUrl : Option String
  isExporting : Bool
  showExportDialog : Bool
  pollingActive : Bool
deriving DecidableEq, Repr

/-- A user-facing notification. -/
inductive Toast
  | success (msg : String)
  | error (msg : String)
deriving DecidableEq, Repr

/-- Result of one export-status polling tick. -/
structure ExportTickResult where
  state : ExportState
  toasts : List Toast
  loggedError : Bool
deriving DecidableEq, Repr

/-- JavaScript `a || b` on a nullable string and a default. -/
def jsOrDefault (o : Option String) (d : String) : String :=
  match o with
  | some s => if s = "" then d else s
  | none => d

/-- Truthiness of a nullable string field. -/
def truthy (o : Option String) : Bool :=
  match o with
  | some s => s != ""
  | none => false

/-- One tick of `checkExportStatus` (lines 693-735).  `response` is the
parsed status body, `none` when the fetch failed (caught at lines
731-734: logged, polling deliberately not stopped).  On `COMPLETED` with
a video url, and on `FAILED`, the interval is cleared; on `FAILED` an
error toast is surfaced and the dialog closed (lines 721-729). -/
def checkExportStatus (s : ExportState) (response : Option ExportStatusResponse) :
    ExportTickResult :=
  match response with
  | none => { state := s, toasts := [], loggedError := true }
  | some d =>
      let s1 := { s with exportStatus := some d.status }
      if d.status = "COMPLETED" && truthy d.video_url then
        { state :=
            { s1 with
              exportedVideoUrl := d.video_url
              pollingActive := false
              isExporting := false }
          toasts := [Toast.success "Video exported successfully"]
          loggedError := false }
      else if d.status = "FAILED" then
        { state :=
            { s1 with
              pollingActive := false
              isExporting := false
              showExportDialog := false }
          toasts := [Toast.error ("Export failed: " ++ jsOrDefault d.error "Unknown error")]
          loggedError := false }
      else
        { state := s1, toasts := [], loggedError := false }

/-- The Close button of the export dialog (lines 1333-1346): hide the
dialog and, only when no export is in flight, reset the status and the
exported url.  The returned `Bool` records whether any backend request
was issued by the handler (the handler contains no fetch at all). -/
def closeExportDialog (s : ExportState) : ExportState × Bool :=
  let s1 := { s with showExportDialog := false }
  if !s.isExporting then
    ({ s1 with exportStatus := none, exportedVideoUrl := none }, false)
  else
    (s1, false)

/-- The unmount cleanup effect (lines 685-691): clearing the export
polling interval when the component unmounts. -/
def unmountCleanup (s : ExportState) : ExportState :=
  { s with pollingActive := false }

/-! ## Timeline geometry (`video-editor.tsx`) -/

/-- `totalDuration` (lines 836-843): `task.shots.reduce((acc, ...) => acc
+ 5, 0)` — five seconds accumulated per shot. -/
def totalDuration (shots : List Shot) : Nat :=
  shots.foldl (fun acc _ => acc + 5) 0

/-- Start second of a shot's timeline slot, `renderTimelineTrack` lines
854-855: `const shotIndex = shot.order; const start = shotIndex * 5`. -/
def timelineStart (shot : Shot) : Nat :=
  shot.order * 5

/-- End second of a shot's timeline slot (line 856). -/
def timelineEnd (shot : Shot) : Nat :=
  timelineStart shot + 5

/-- Start frame of a shot's Player sequence (lines 1456-1461):
`shot.order * 5` seconds at 30 fps. -/
def sequenceFrom (shot : Shot) : Nat :=
  shot.order * 5 * 30

/-- Frame count of each Player sequence (line 1461): 5 seconds at
30 fps. -/
def sequenceDurationInFrames : Nat :=
  5 * 30

/-- The data-model invariant (spec section 3): the shots' `order` values
are exactly the contiguous zero-based indices `0 .. N-1`, in some
arrangement. -/
def ordersContiguous (shots : List Shot) : Prop :=
  List.Perm (shots.map Shot.order) (List.range shots.length)

instance : DecidablePred ordersContiguous := fun shots => by
  unfold ordersContiguous
  exact List.decidablePerm _ _

/-! ## Concrete sample data used by witnesses and counterexamples -/

/-- A sample shot with the given order and media urls. -/
def mkShot (order : Nat) (video_url voiceover_url : String) : Shot :=
  { mood := "calm", order := order, captions := ["hi"], ai_prompt := "p",
    timestamp := "0:00-0:05", video_url := video_url,
    voiceover_url := voiceover_url, special_effects := [],
    voiceover_script := "s", video_status := some "completed",
    audio_status := some "completed", starting_image_url := none }

/-- Two shots stored out of order: the first array element has
`order = 1`, the second has `order = 0`. -/
def outOfOrderShots : List Shot :=
  [mkShot 1 "a.mp4" "a.mp3", mkShot 0 "b.mp4" "b.mp3"]

/-! ## Theorems -/

/-- Claim C7: an export request built from N shots has total duration
N × 5 s — the video and voiceover tracks each carry one keyframe per shot
of 5000 ms, their durations sum to N × 5000 ms, and the optional
background-music keyframe starts at 0 and spans exactly N × 5000 ms. -/
theorem export_request_total_duration (apiUrl musicUrl : String) (shots : List Shot)
    (hm : musicUrl ≠ "") :
    (videoTrack shots).keyframes.length = shots.length ∧
    (voiceoverTrack apiUrl shots).keyframes.length = shots.length ∧
    (∀ kf ∈ (videoTrack shots).keyframes, kf.duration = 5000) ∧
    (∀ kf ∈ (voiceoverTrack apiUrl shots).keyframes, kf.duration = 5000) ∧
    ((videoTrack shots).keyframes.map Keyframe.duration).sum = shots.length * 5000 ∧
    ((voiceoverTrack apiUrl shots).keyframes.map Keyframe.duration).sum =
      shots.length * 5000 ∧
    (backgroundMusicTrack shots musicUrl).keyframes =
      [{ timestamp := 0, duration := shots.length * 5000, url := musicUrl }] ∧
    exportTracks apiUrl shots (some musicUrl) =
      [videoTrack shots, voiceoverTrack apiUrl shots, backgroundMusicTrack shots musicUrl] := by
  have hv : ((videoTrack shots).keyframes.map Keyframe.duration) =
      List.replicate shots.length 5000 := by
    simp only [videoTrack, List.map_map]
    rw [show (Keyframe.duration ∘ fun p : Nat × Shot =>
          ({ timestamp := p.1 * 5000, duration := 5000, url := p.2.video_url } : Keyframe)) =
        fun _ => 5000 from rfl]
    rw [List.map_const', List.enum_length]
  have hw : ((voiceoverTrack apiUrl shots).keyframes.map Keyframe.duration) =
      List.replicate shots.length 5000 := by
    simp only [voiceoverTrack, List.map_map]
    rw [show (Keyframe.duration ∘ fun p : Nat × Shot =>
          ({ timestamp := p.1 * 5000, duration := 5000,
             url := apiUrl ++ p.2.voiceover_url } : Keyframe)) =
        fun _ => 5000 from rfl]
    rw [List.map_const', List.enum_length]
  refine ⟨?_, ?_, ?_, ?_, ?_, ?_, rfl, ?_⟩
  · simp [videoTrack, List.enum_length]
  · simp [voiceoverTrack, List.enum_length]
  · intro kf hkf
    simp only [videoTrack, List.mem_map] at hkf
    obtain ⟨p, _, rfl⟩ := hkf
    rfl
  · intro kf hkf
    simp only [voiceoverTrack, List.mem_map] at hkf
    obtain ⟨p, _, rfl⟩ := hkf
    rfl
  · rw [hv]; simp [List.sum_replicate, Nat.mul_comm]
  · rw [hw]; simp [List.sum_replicate, Nat.mul_comm]
  · simp [exportTracks, hm]

/-- Witness for `export_request_total_duration` at a concrete input. -/
theorem export_request_total_duration_witness :
    ("m.mp3" : String) ≠ "" ∧
    ((videoTrack outOfOrderShots).keyframes.length = outOfOrderShots.length ∧
     (voiceoverTrack "http://localhost:5002/" outOfOrderShots).keyframes.length =
       outOfOrderShots.length ∧
     (∀ kf ∈ (videoTrack outOfOrderShots).keyframes, kf.duration = 5000) ∧
     (∀ kf ∈ (voiceoverTrack "http://localhost:5002/" outOfOrderShots).keyframes,
       kf.duration = 5000) ∧
     ((videoTrack outOfOrderShots).keyframes.map Keyframe.duration).sum =
       outOfOrderShots.length * 5000 ∧
     ((voiceoverTrack "http://localhost:5002/" outOfOrderShots).keyframes.map
       Keyframe.duration).sum = outOfOrderShots.length * 5000 ∧
     (backgroundMusicTrack outOfOrderShots "m.mp3").keyframes =
       [{ timestamp := 0, duration := outOfOrderShots.length * 5000, url := "m.mp3" }] ∧
     exportTracks "http://localhost:5002/" outOfOrderShots (some "m.mp3") =
       [videoTrack outOfOrderShots, voiceoverTrack "http://localhost:5002/" outOfOrderShots,
        backgroundMusicTrack outOfOrderShots "m.mp3"]) :=
  ⟨by decide,
   export_request_total_duration "http://localhost:5002/" "m.mp3" outOfOrderShots (by decide)⟩

/-- Claim C2, counterexample: the export keyframe timestamps are taken
from the array index, not from the shot's `order` field.  With the shots
stored out of order the produced video-track timestamps are [0, 5000]
while order × 5000 would give [5000, 0]. -/
theorem export_timestamp_not_order_based :
    (videoTrack outOfOrderShots).keyframes.map Keyframe.timestamp = [0, 5000] ∧
    outOfOrderShots.map (fun sh => sh.order * 5000) = [5000, 0] ∧
    (videoTrack outOfOrderShots).keyframes.map Keyframe.timestamp ≠
      outOfOrderShots.map (fun sh => sh.order * 5000) := by
  refine ⟨rfl, rfl, ?_⟩
  decide

/-- Claim C2 (amended): each keyframe of the video and voiceover export
tracks takes its timestamp from the shot's position in the local shots
array (index × 5000 ms), and this agrees with order × 5000 ms exactly on
arrays arranged so that every shot's `order` equals its index. -/
theorem export_track_keyframes_index_based (apiUrl : String) (shots : List Shot) :
    (∀ i : Nat, ((videoTrack shots).keyframes)[i]? =
        (shots[i]?).map (fun sh =>
          { timestamp := i * 5000, duration := 5000, url := sh.video_url })) ∧
    (∀ i : Nat, ((voiceoverTrack apiUrl shots).keyframes)[i]? =
        (shots[i]?).map (fun sh =>
          { timestamp := i * 5000, duration := 5000, url := apiUrl ++ sh.voiceover_url })) ∧
    ((∀ i : Nat, ∀ sh ∈ shots[i]?, sh.order = i) →
      ∀ i : Nat, ∀ sh ∈ shots[i]?,
        ((videoTrack shots).keyframes)[i]? =
          some { timestamp := sh.order * 5000, duration := 5000, url := sh.video_url }) := by
  have hv : ∀ i : Nat, ((videoTrack shots).keyframes)[i]? =
      (shots[i]?).map (fun sh =>
        { timestamp := i * 5000, duration := 5000, url := sh.video_url }) := by
    intro i
    simp only [videoTrack]
    rw [List.getElem?_map, List.getElem?_enum]
    cases shots[i]? <;> rfl
  refine ⟨hv, ?_, ?_⟩
  · intro i
    simp only [voiceoverTrack]
    rw [List.getElem?_map, List.getElem?_enum]
    cases shots[i]? <;> rfl
  · intro hord i sh hsh
    have := hord i sh hsh
    rw [hv i]
    cases hcase : shots[i]? with
    | none => rw [hcase] at hsh; cases hsh
    | some sh' =>
        rw [hcase] at hsh
        cases hsh
        rw [this]
        rfl

/-- Witness for `export_track_keyframes_index_based` at a concrete
input. -/
theorem export_track_keyframes_index_based_witness :
    (∀ i : Nat, ((videoTrack outOfOrderShots).keyframes)[i]? =
        (outOfOrderShots[i]?).map (fun sh =>
          { timestamp := i * 5000, duration := 5000, url := sh.video_url })) ∧
    (∀ i : Nat, ((voiceoverTrack "u/" outOfOrderShots).keyframes)[i]? =
        (outOfOrderShots[i]?).map (fun sh =>
          { timestamp := i * 5000, duration := 5000, url := "u/" ++ sh.voiceover_url })) ∧
    ((∀ i : Nat, ∀ sh ∈ outOfOrderShots[i]?, sh.order = i) →
      ∀ i : Nat, ∀ sh ∈ outOfOrderShots[i]?,
        ((videoTrack outOfOrderShots).keyframes)[i]? =
          some { timestamp := sh.order * 5000, duration := 5000, url := sh.video_url }) :=
  export_track_keyframes_index_based "u/" outOfOrderShots

/-- Claim C4: a caption edit issues one synchronous `update-captions`
request and never starts polling, while a video, audio, or
starting-image edit issues a `regenerate-shot` request and, the request
having succeeded, starts the shot-status polling interval; video and
image edits request video regeneration and audio edits request audio
regeneration. -/
theorem caption_edit_sync_other_edits_async (shotOrder : Nat) (prompt : String)
    (vUrl imgUrl : Option String) (ok : Bool) (hok : ok = true) :
    ((handleRegenerate EditType.caption shotOrder prompt vUrl imgUrl ok).startedPolling
        = false ∧
      (handleRegenerate EditType.caption shotOrder prompt vUrl imgUrl ok).request =
        EditRequest.captionUpdate
          { shotOrder := shotOrder, captions := newCaptions prompt }) ∧
    (∀ t : EditType, t ≠ EditType.caption →
      (handleRegenerate t shotOrder prompt vUrl imgUrl ok).startedPolling = true ∧
      (handleRegenerate t shotOrder prompt vUrl imgUrl ok).request =
        EditRequest.regenerate (regenRequestBody t shotOrder prompt vUrl imgUrl)) ∧
    (regenRequestBody EditType.video shotOrder prompt vUrl imgUrl).regenerate_video
      = true ∧
    (regenRequestBody EditType.image shotOrder prompt vUrl imgUrl).regenerate_video
      = true ∧
    (regenRequestBody EditType.audio shotOrder prompt vUrl imgUrl).regenerate_audio
      = true := by
  subst hok
  refine ⟨⟨rfl, rfl⟩, ?_, rfl, rfl, rfl⟩
  intro t ht
  cases t with
  | video => exact ⟨rfl, rfl⟩
  | audio => exact ⟨rfl, rfl⟩
  | caption => exact absurd rfl ht
  | image => exact ⟨rfl, rfl⟩

/-- Witness for `caption_edit_sync_other_edits_async` at a concrete
input. -/
theorem caption_edit_sync_other_edits_async_witness :
    (true = true) ∧
    (((handleRegenerate EditType.caption 0 "line" none none true).startedPolling
        = false ∧
      (handleRegenerate EditType.caption 0 "line" none none true).request =
        EditRequest.captionUpdate { shotOrder := 0, captions := newCaptions "line" }) ∧
    (∀ t : EditType, t ≠ EditType.caption →
      (handleRegenerate t 0 "line" none none true).startedPolling = true ∧
      (handleRegenerate t 0 "line" none none true).request =
        EditRequest.regenerate (regenRequestBody t 0 "line" none none)) ∧
    (regenRequestBody EditType.video 0 "line" none none).regenerate_video = true ∧
    (regenRequestBody EditType.image 0 "line" none none).regenerate_video = true ∧
    (regenRequestBody EditType.audio 0 "line" none none).regenerate_audio = true) :=
  ⟨rfl, caption_edit_sync_other_edits_async 0 "line" none none true rfl⟩

/-- Claim C5: an export status poll that returns `FAILED` clears the
export polling interval, ends the exporting state, and surfaces an error
toast to the user. -/
theorem export_failed_clears_polling (s : ExportState) (d : ExportStatusResponse)
    (hd : d.status = "FAILED") :
    (checkExportStatus s (some d)).state.pollingActive = false ∧
    (checkExportStatus s (some d)).state.isExporting = false ∧
    (checkExportStatus s (some d)).toasts =
      [Toast.error ("Export failed: " ++ jsOrDefault d.error "Unknown error")] := by
  simp [checkExportStatus, hd]

/-- Witness for `export_failed_clears_polling` at a concrete input. -/
theorem export_failed_clears_polling_witness :
    (({ status := "FAILED", video_url := none,
        error := some "boom" } : ExportStatusResponse).status = "FAILED") ∧
    ((checkExportStatus
        { exportStatus := some "EXPORTING", exportedVideoUrl := none,
          isExporting := true, showExportDialog := true, pollingActive := true }
        (some { status := "FAILED", video_url := none,
                error := some "boom" })).state.pollingActive = false ∧
     (checkExportStatus
        { exportStatus := some "EXPORTING", exportedVideoUrl := none,
          isExporting := true, showExportDialog := true, pollingActive := true }
        (some { status := "FAILED", video_url := none,
                error := some "boom" })).state.isExporting = false ∧
     (checkExportStatus
        { exportStatus := some "EXPORTING", exportedVideoUrl := none,
          isExporting := true, showExportDialog := true, pollingActive := true }
        (some { status := "FAILED", video_url := none, error := some "boom" })).toasts =
       [Toast.error ("Export failed: " ++
          jsOrDefault (some "boom") "Unknown error")]) :=
  ⟨rfl, export_failed_clears_polling
    { exportStatus := some "EXPORTING", exportedVideoUrl := none,
      isExporting := true, showExportDialog := true, pollingActive := true }
    { status := "FAILED", video_url := none, error := some "boom" } rfl⟩

/-- Claim C6: when the status fetch of a polling tick fails, the failure
is caught and logged and the interval is left running, in all three
loops — shot-regeneration polling, export polling, and (whenever the
dashboard tick actually issued a fetch) dashboard task polling. -/
theorem polling_tolerates_fetch_failure (es : EditorState) (xs : ExportState)
    (ds : DashboardState)
    (hfetch : (checkAndUpdateTasks ds none).fetched = true) :
    ((checkShotStatus es none).state = es ∧
      (checkShotStatus es none).loggedError = true) ∧
    ((checkExportStatus xs none).state = xs ∧
      (checkExportStatus xs none).loggedError = true) ∧
    ((checkAndUpdateTasks ds none).state.tasks = ds.tasks ∧
      (checkAndUpdateTasks ds none).state.pollingActive = ds.pollingActive ∧
      (checkAndUpdateTasks ds none).loggedError = true) := by
  refine ⟨⟨rfl, rfl⟩, ⟨rfl, rfl⟩, ?_⟩
  unfold checkAndUpdateTasks at hfetch ⊢
  by_cases h : (ds.tasks.filter (fun t => isIncompleteStatus t.status)).isEmpty
  · simp [h] at hfetch
  · simp [h]

/-- Witness for `polling_tolerates_fetch_failure` at a concrete input. -/
theorem polling_tolerates_fetch_failure_witness :
    ((checkAndUpdateTasks
        { tasks := [{ id := "t1", status := "PENDING", progress := 0 }],
          hasIncompleteTask := true, pollingActive := true } none).fetched = true) ∧
    (((checkShotStatus
        { shots := outOfOrderShots, selectedShot := none,
          hasRegeneratingShot := false, pollingActive := true } none).state =
        { shots := outOfOrderShots, selectedShot := none,
          hasRegeneratingShot := false, pollingActive := true } ∧
      (checkShotStatus
        { shots := outOfOrderShots, selectedShot := none,
          hasRegeneratingShot := false, pollingActive := true } none).loggedError
        = true) ∧
    ((checkExportStatus
        { exportStatus := some "EXPORTING", exportedVideoUrl := none,
          isExporting := true, showExportDialog := true, pollingActive := true }
        none).state =
        { exportStatus := some "EXPORTING", exportedVideoUrl := none,
          isExporting := true, showExportDialog := true, pollingActive := true } ∧
      (checkExportStatus
        { exportStatus := some "EXPORTING", exportedVideoUrl := none,
          isExporting := true, showExportDialog := true, pollingActive := true }
        none).loggedError = true) ∧
    ((checkAndUpdateTasks
        { tasks := [{ id := "t1", status := "PENDING", progress := 0 }],
          hasIncompleteTask := true, pollingActive := true } none).state.tasks =
        [{ id := "t1", status := "PENDING", progress := 0 }] ∧
      (checkAndUpdateTasks
        { tasks := [{ id := "t1", status := "PENDING", progress := 0 }],
          hasIncompleteTask := true, pollingActive := true } none).state.pollingActive
        = true ∧
      (checkAndUpdateTasks
        { tasks := [{ id := "t1", status := "PENDING", progress := 0 }],
          hasIncompleteTask := true, pollingActive := true } none).loggedError
        = true)) :=
  ⟨by decide,
   polling_tolerates_fetch_failure
     { shots := outOfOrderShots, selectedShot := none,
       hasRegeneratingShot := false, pollingActive := true }
     { exportStatus := some "EXPORTING", exportedVideoUrl := none,
       isExporting := true, showExportDialog := true, pollingActive := true }
     { tasks := [{ id := "t1", status := "PENDING", progress := 0 }],
       hasIncompleteTask := true, pollingActive := true }
     (by decide)⟩

/-- Claim C8, counterexample: closing the export dialog while an export
is in flight sends no backend request but also does NOT stop the local
export polling — the interval keeps running after the close action. -/
theorem close_dialog_keeps_polling_counterexample :
    ({ exportStatus := some "EXPORTING", exportedVideoUrl := none,
       isExporting := true, showExportDialog := true,
       pollingActive := true } : ExportState).isExporting = true ∧
    ({ exportStatus := some "EXPORTING", exportedVideoUrl := none,
       isExporting := true, showExportDialog := true,
       pollingActive := true } : ExportState).pollingActive = true ∧
    (closeExportDialog
      { exportStatus := some "EXPORTING", exportedVideoUrl := none,
        isExporting := true, showExportDialog := true, pollingActive := true }).2
      = false ∧
    ¬((closeExportDialog
      { exportStatus := some "EXPORTING", exportedVideoUrl := none,
        isExporting := true, showExportDialog := true,
        pollingActive := true }).1.pollingActive = false) := by
  decide

/-- Claim C8 (amended): closing the export dialog sends no backend
request and does not stop the export polling interval; its only effects
are on local view state — the dialog is hidden, and when no export is in
flight the export status and exported url are reset.  The polling
interval is cleared only by the component unmount cleanup. -/
theorem close_dialog_local_view_state_only (s : ExportState) :
    (closeExportDialog s).2 = false ∧
    (closeExportDialog s).1.pollingActive = s.pollingActive ∧
    (closeExportDialog s).1.showExportDialog = false ∧
    (closeExportDialog s).1.isExporting = s.isExporting ∧
    (s.isExporting = true →
      (closeExportDialog s).1.exportStatus = s.exportStatus ∧
      (closeExportDialog s).1.exportedVideoUrl = s.exportedVideoUrl) ∧
    (s.isExporting = false →
      (closeExportDialog s).1.exportStatus = none ∧
      (closeExportDialog s).1.exportedVideoUrl = none) ∧
    (unmountCleanup s).pollingActive = false := by
  unfold closeExportDialog unmountCleanup
  by_cases h : s.isExporting <;> simp [h]

/-- Witness for `close_dialog_local_view_state_only` at a concrete
input. -/
theorem close_dialog_local_view_state_only_witness :
    ((closeExportDialog
        { exportStatus := some "QUEUED", exportedVideoUrl := none,
          isExporting := true, showExportDialog := true, pollingActive := true }).2
        = false ∧
     (closeExportDialog
        { exportStatus := some "QUEUED", exportedVideoUrl := none,
          isExporting := true, showExportDialog := true,
          pollingActive := true }).1.pollingActive =
        ({ exportStatus := some "QUEUED", exportedVideoUrl := none,
           isExporting := true, showExportDialog := true,
           pollingActive := true } : ExportState).pollingActive ∧
     (closeExportDialog
        { exportStatus := some "QUEUED", exportedVideoUrl := none,
          isExporting := true, showExportDialog := true,
          pollingActive := true }).1.showExportDialog = false ∧
     (closeExportDialog
        { exportStatus := some "QUEUED", exportedVideoUrl := none,
          isExporting := true, showExportDialog := true,
          pollingActive := true }).1.isExporting =
        ({ exportStatus := some "QUEUED", exportedVideoUrl := none,
           isExporting := true, showExportDialog := true,
           pollingActive := true } : ExportState).isExporting ∧
     (({ exportStatus := some "QUEUED", exportedVideoUrl := none,
         isExporting := true, showExportDialog := true,
         pollingActive := true } : ExportState).isExporting = true →
       (closeExportDialog
          { exportStatus := some "QUEUED", exportedVideoUrl := none,
            isExporting := true, showExportDialog := true,
            pollingActive := true }).1.exportStatus =
          ({ exportStatus := some "QUEUED", exportedVideoUrl := none,
             isExporting := true, showExportDialog := true,
             pollingActive := true } : ExportState).exportStatus ∧
       (closeExportDialog
          { exportStatus := some "QUEUED", exportedVideoUrl := none,
            isExporting := true, showExportDialog := true,
            pollingActive := true }).1.exportedVideoUrl =
          ({ exportStatus := some "QUEUED", exportedVideoUrl := none,
             isExporting := true, showExportDialog := true,
             pollingActive := true } : ExportState).exportedVideoUrl) ∧
     (({ exportStatus := some "QUEUED", exportedVideoUrl := none,
         isExporting := true, showExportDialog := true,
         pollingActive := true } : ExportState).isExporting = false →
       (closeExportDialog
          { exportStatus := some "QUEUED", exportedVideoUrl := none,
            isExporting := true, showExportDialog := true,
            pollingActive := true }).1.exportStatus = none ∧
       (closeExportDialog
          { exportStatus := some "QUEUED", exportedVideoUrl := none,
            isExporting := true, showExportDialog := true,
            pollingActive := true }).1.exportedVideoUrl = none) ∧
     (unmountCleanup
        { exportStatus := some "QUEUED", exportedVideoUrl := none,
          isExporting := true, showExportDialog := true,
          pollingActive := true }).pollingActive = false) :=
  close_dialog_local_view_state_only
    { exportStatus := some "QUEUED", exportedVideoUrl := none,
      isExporting := true, showExportDialog := true, pollingActive := true }

/-- Trimming a character list yields the empty list exactly when every
character is whitespace. -/
theorem jsTrimChars_eq_nil_iff (l : List Char) :
    jsTrimChars l = [] ↔ ∀ c ∈ l, c.isWhitespace := by
  unfold jsTrimChars
  rw [List.reverse_eq_nil_iff, List.dropWhile_eq_nil_iff]
  simp only [List.mem_reverse]
  constructor
  · intro h c hc
    have hsplit := List.takeWhile_append_dropWhile (p := Char.isWhitespace) (l := l)
    rw [← hsplit] at hc
    rcases List.mem_append.mp hc with h1 | h2
    · exact List.mem_takeWhile_imp h1
    · exact h c h2
  · intro h c hc
    exact h c ((List.dropWhile_sublist _).subset hc)

/-- The filter predicate of `handleCaptionUpdate` — the trim of a line
being truthy — agrees with the line not being whitespace-only. -/
theorem jsTrim_bne_empty (s : String) :
    (jsTrim s != "") = !(s.data.all Char.isWhitespace) := by
  have h : (jsTrim s = "") ↔ (s.data.all Char.isWhitespace = true) := by
    constructor
    · intro he
      have hd : jsTrimChars s.data = [] := congrArg String.data he
      rw [List.all_eq_true]
      exact fun c hc => (jsTrimChars_eq_nil_iff s.data).mp hd c hc
    · intro ha
      exact String.ext ((jsTrimChars_eq_nil_iff s.data).mpr
        (fun c hc => (List.all_eq_true.mp ha) c hc))
  cases hb : s.data.all Char.isWhitespace with
  | true => simp [h.mpr hb]
  | false =>
      have hne : jsTrim s ≠ "" := fun e => by
        rw [h.mp e] at hb
        cases hb
      simp [bne_iff_ne, hne]

/-- Claim C10: the captions submitted by a caption update are the
newline-split of the edited text with every whitespace-only line removed,
so the submitted list never contains a blank caption. -/
theorem caption_update_drops_blank_lines (p : String) :
    newCaptions p =
      (p.splitOn "\n").filter (fun c => !(c.data.all Char.isWhitespace)) ∧
    ∀ c ∈ newCaptions p, (c.data.all Char.isWhitespace) = false := by
  have he : newCaptions p =
      (p.splitOn "\n").filter (fun c => !(c.data.all Char.isWhitespace)) := by
    unfold newCaptions
    exact List.filter_congr (fun c _ => jsTrim_bne_empty c)
  refine ⟨he, ?_⟩
  intro c hc
  rw [he] at hc
  have hp := List.of_mem_filter hc
  simpa using hp

/-- Witness for `caption_update_drops_blank_lines` at a concrete
input. -/
theorem caption_update_drops_blank_lines_witness :
    (newCaptions "first line\n   \n\nsecond line" =
      (("first line\n   \n\nsecond line" : String).splitOn "\n").filter
        (fun c => !(c.data.all Char.isWhitespace)) ∧
    ∀ c ∈ newCaptions "first line\n   \n\nsecond line",
      (c.data.all Char.isWhitespace) = false) :=
  caption_update_drops_blank_lines "first line\n   \n\nsecond line"

/-- `totalDuration` accumulates five seconds per shot. -/
theorem totalDuration_eq (shots : List Shot) :
    totalDuration shots = shots.length * 5 := by
  unfold totalDuration
  suffices h : ∀ (l : List Shot) (a : Nat),
      l.foldl (fun acc _ => acc + 5) a = a + l.length * 5 by
    simpa using h shots 0
  intro l
  induction l with
  | nil => simp
  | cons x xs ih =>
      intro a
      rw [List.foldl_cons, ih]
      simp
      ring

/-- Claim C3: the client's single-shot mutations (caption update, shot
update after image generation, regeneration status merge) all replace
the shot list with the server response, so contiguous 0..N-1 order
values are preserved whenever the response satisfies the data-model
invariant; and order × 5 s determines each shot's timeline slot and
Player sequence, the N slots tiling the total duration N × 5 s. -/
theorem shot_order_contiguity_and_timeline (s : EditorState) (respShots : List Shot)
    (h : ordersContiguous respShots) :
    ordersContiguous (applyTaskResponseShots s respShots).shots ∧
    ordersContiguous (checkShotStatus s (some respShots)).state.shots ∧
    (∀ shots' : List Shot, ordersContiguous shots' →
      List.Perm (shots'.map timelineStart)
        ((List.range shots'.length).map (fun i => i * 5)) ∧
      totalDuration shots' = shots'.length * 5 ∧
      ∀ sh ∈ shots', timelineStart sh = sh.order * 5 ∧
        timelineEnd sh ≤ totalDuration shots' ∧
        sequenceFrom sh = timelineStart sh * 30) := by
  have hshots1 : (applyTaskResponseShots s respShots).shots = respShots := rfl
  have hshots2 : (checkShotStatus s (some respShots)).state.shots = respShots := by
    simp only [checkShotStatus]
    split <;> rfl
  refine ⟨hshots1.symm ▸ h, hshots2.symm ▸ h, ?_⟩
  intro shots' h'
  have htl : shots'.map timelineStart = (shots'.map Shot.order).map (fun o => o * 5) := by
    rw [List.map_map]
    rfl
  refine ⟨?_, totalDuration_eq shots', ?_⟩
  · rw [htl]
    exact h'.map (fun o => o * 5)
  · intro sh hsh
    refine ⟨rfl, ?_, rfl⟩
    have h1 : sh.order ∈ shots'.map Shot.order := List.mem_map_of_mem _ hsh
    have h2 : sh.order ∈ List.range shots'.length := h'.mem_iff.mp h1
    have hlt := List.mem_range.mp h2
    rw [totalDuration_eq]
    unfold timelineEnd timelineStart
    omega

/-- Witness for `shot_order_contiguity_and_timeline` at a concrete
input. -/
theorem shot_order_contiguity_and_timeline_witness :
    ordersContiguous outOfOrderShots ∧
    (ordersContiguous (applyTaskResponseShots
        { shots := [], selectedShot := none, hasRegeneratingShot := false,
          pollingActive := false } outOfOrderShots).shots ∧
     ordersContiguous (checkShotStatus
        { shots := [], selectedShot := none, hasRegeneratingShot := false,
          pollingActive := false } (some outOfOrderShots)).state.shots ∧
     (∀ shots' : List Shot, ordersContiguous shots' →
       List.Perm (shots'.map timelineStart)
         ((List.range shots'.length).map (fun i => i * 5)) ∧
       totalDuration shots' = shots'.length * 5 ∧
       ∀ sh ∈ shots', timelineStart sh = sh.order * 5 ∧
         timelineEnd sh ≤ totalDuration shots' ∧
         sequenceFrom sh = timelineStart sh * 30)) :=
  ⟨by decide,
   shot_order_contiguity_and_timeline
     { shots := [], selectedShot := none, hasRegeneratingShot := false,
       pollingActive := false } outOfOrderShots (by decide)⟩

/-! ## Properties of the dashboard bulk-status merge -/

/-- `replaceById` preserves the id at every position of the list. -/
theorem replaceById_map_id (ts : List DashTask) (u : DashTask) :
    (replaceById ts u).map DashTask.id = ts.map DashTask.id := by
  unfold replaceById
  cases h : ts.findIdx? (fun t => t.id = u.id) with
  | none => rfl
  | some i =>
      rw [List.findIdx?_eq_some_iff_getElem] at h
      obtain ⟨hi, hp, _⟩ := h
      have hid : ts[i].id = u.id := by simpa using hp
      rw [List.map_set]
      apply List.ext_getElem?
      intro j
      by_cases hj : i = j
      · subst hj
        rw [List.getElem?_set_self (by simpa using hi), List.getElem?_map,
          List.getElem?_eq_getElem hi]
        simp [hid]
      · rw [List.getElem?_set_ne hj]

/-- Every position of `replaceById` holds the old entry or the
replacement. -/
theorem replaceById_getElem?_cases (ts : List DashTask) (u : DashTask) (j : Nat) :
    (replaceById ts u)[j]? = ts[j]? ∨ (replaceById ts u)[j]? = some u := by
  unfold replaceById
  cases h : ts.findIdx? (fun t => t.id = u.id) with
  | none => exact Or.inl rfl
  | some i =>
      by_cases hj : i = j
      · subst hj
        rw [List.findIdx?_eq_some_iff_getElem] at h
        obtain ⟨hi, _, _⟩ := h
        exact Or.inr (List.getElem?_set_self hi)
      · exact Or.inl (List.getElem?_set_ne hj)

/-- A position whose id differs from the replaced id is untouched by
`replaceById`. -/
theorem replaceById_getElem?_ne (ts : List DashTask) (u : DashTask) (j : Nat)
    (h : ∀ t, ts[j]? = some t → t.id ≠ u.id) :
    (replaceById ts u)[j]? = ts[j]? := by
  unfold replaceById
  cases hf : ts.findIdx? (fun t => t.id = u.id) with
  | none => rfl
  | some i =>
      rw [List.findIdx?_eq_some_iff_getElem] at hf
      obtain ⟨hi, hp, _⟩ := hf
      have hid : ts[i].id = u.id := by simpa using hp
      have hij : i ≠ j := by
        intro e
        subst e
        exact h ts[i] (List.getElem?_eq_getElem hi) hid
      exact List.getElem?_set_ne hij

/-- With pairwise-distinct ids, replacing a task whose id sits at
position j sets exactly position j. -/
theorem replaceById_getElem?_eq (ts : List DashTask) (u : DashTask) (j : Nat)
    (hnodup : (ts.map DashTask.id).Nodup) (t : DashTask)
    (ht : ts[j]? = some t) (hid : u.id = t.id) :
    (replaceById ts u)[j]? = some u := by
  obtain ⟨hj, htj⟩ := List.getElem?_eq_some.mp ht
  have hfind : ts.findIdx? (fun t' => t'.id = u.id) = some j := by
    rw [List.findIdx?_eq_some_iff_getElem]
    refine ⟨hj, by simp [htj, hid], ?_⟩
    intro k hk
    simp only [decide_eq_true_eq]
    intro hpk
    have hklen : k < (ts.map DashTask.id).length := by simpa using Nat.lt_trans hk hj
    have hjlen : j < (ts.map DashTask.id).length := by simpa using hj
    have hkid : (ts.map DashTask.id)[k] = (ts.map DashTask.id)[j] := by
      simp [List.getElem_map, hpk, htj, hid]
    have := (List.Nodup.getElem_inj_iff hnodup).mp hkid
    omega
  unfold replaceById
  rw [hfind]
  exact List.getElem?_set_self hj

/-- Unfolding one step of the merge fold. -/
theorem mergeTasks_cons (prev : List DashTask) (u : DashTask) (rest : List DashTask) :
    mergeTasks prev (u :: rest) = mergeTasks (replaceById prev u) rest := rfl

/-- The merge preserves the id at every position. -/
theorem mergeTasks_map_id (prev data : List DashTask) :
    (mergeTasks prev data).map DashTask.id = prev.map DashTask.id := by
  induction data generalizing prev with
  | nil => rfl
  | cons u rest ih => rw [mergeTasks_cons, ih, replaceById_map_id]

/-- The merge preserves the length of the local task list. -/
theorem mergeTasks_length (prev data : List DashTask) :
    (mergeTasks prev data).length = prev.length := by
  have h := congrArg List.length (mergeTasks_map_id prev data)
  simpa using h

/-- Every position of the merged list holds the old entry or an entry of
the response. -/
theorem mergeTasks_getElem?_cases (prev data : List DashTask) (j : Nat) :
    (mergeTasks prev data)[j]? = prev[j]? ∨
      ∃ u ∈ data, (mergeTasks prev data)[j]? = some u := by
  induction data generalizing prev with
  | nil => exact Or.inl rfl
  | cons u rest ih =>
      rw [mergeTasks_cons]
      rcases ih (replaceById prev u) with h | ⟨v, hv, he⟩
      · rcases replaceById_getElem?_cases prev u j with h2 | h2
        · exact Or.inl (h.trans h2)
        · exact Or.inr ⟨u, List.mem_cons_self u rest, h.trans h2⟩
      · exact Or.inr ⟨v, List.mem_cons_of_mem u hv, he⟩

/-- A task whose id is mentioned by no response entry is left unchanged
by the merge. -/
theorem mergeTasks_getElem?_untouched (prev data : List DashTask) (j : Nat)
    (h : ∀ u ∈ data, ∀ t, prev[j]? = some t → u.id ≠ t.id) :
    (mergeTasks prev data)[j]? = prev[j]? := by
  induction data generalizing prev with
  | nil => rfl
  | cons u rest ih =>
      rw [mergeTasks_cons]
      have h1 : (replaceById prev u)[j]? = prev[j]? :=
        replaceById_getElem?_ne prev u j
          (fun t ht => (h u (List.mem_cons_self u rest) t ht).symm)
      have h2 : ∀ u' ∈ rest, ∀ t, (replaceById prev u)[j]? = some t → u'.id ≠ t.id := by
        intro u' hu' t ht
        rw [h1] at ht
        exact h u' (List.mem_cons_of_mem u hu') t ht
      rw [ih (replaceById prev u) h2, h1]

/-- With pairwise-distinct ids, a task whose id is mentioned by the
response ends up replaced by a response entry. -/
theorem mergeTasks_getElem?_covered (prev data : List DashTask) (j : Nat)
    (hnodup : (prev.map DashTask.id).Nodup) (t : DashTask)
    (ht : prev[j]? = some t) (hcov : ∃ u ∈ data, u.id = t.id) :
    ∃ v ∈ data, (mergeTasks prev data)[j]? = some v := by
  induction data generalizing prev t with
  | nil =>
      obtain ⟨u, hu, _⟩ := hcov
      cases hu
  | cons u rest ih =>
      rw [mergeTasks_cons]
      by_cases hu : u.id = t.id
      · have hset : (replaceById prev u)[j]? = some u :=
          replaceById_getElem?_eq prev u j hnodup t ht hu
        rcases mergeTasks_getElem?_cases (replaceById prev u) rest j with h | ⟨v, hv, he⟩
        · exact ⟨u, List.mem_cons_self u rest, h.trans hset⟩
        · exact ⟨v, List.mem_cons_of_mem u hv, he⟩
      · have h1 : (replaceById prev u)[j]? = prev[j]? :=
          replaceById_getElem?_ne prev u j (fun t' ht' => by
            have he := Option.some.inj (ht.symm.trans ht')
            subst he
            exact fun e => hu (e.symm))
        have hnodup' : ((replaceById prev u).map DashTask.id).Nodup := by
          rw [replaceById_map_id]
          exact hnodup
        have ht1 : (replaceById prev u)[j]? = some t := by
          rw [h1]
          exact ht
        obtain ⟨u', hu', hid'⟩ := hcov
        have hu'rest : u' ∈ rest := by
          rcases List.mem_cons.mp hu' with rfl | hr
          · exact absurd hid' hu
          · exact hr
        obtain ⟨v, hv, he⟩ := ih (replaceById prev u) hnodup' t ht1 ⟨u', hu'rest, hid'⟩
        exact ⟨v, List.mem_cons_of_mem u hv, he⟩

/-- Claim C9: merging a bulk-status response replaces only local tasks
whose id matches a response entry; tasks not mentioned by the response
are unchanged, and the length, the ids, and the relative order of the
local list are preserved. -/
theorem bulk_status_merge_frame (prev data : List DashTask) :
    (mergeTasks prev data).length = prev.length ∧
    (mergeTasks prev data).map DashTask.id = prev.map DashTask.id ∧
    (∀ j : Nat, (∀ u ∈ data, ∀ t, prev[j]? = some t → u.id ≠ t.id) →
      (mergeTasks prev data)[j]? = prev[j]?) ∧
    (∀ j : Nat, (mergeTasks prev data)[j]? = prev[j]? ∨
      ∃ u ∈ data, (mergeTasks prev data)[j]? = some u) := by
  exact ⟨mergeTasks_length prev data, mergeTasks_map_id prev data,
    fun j h => mergeTasks_getElem?_untouched prev data j h,
    fun j => mergeTasks_getElem?_cases prev data j⟩

/-- Witness for `bulk_status_merge_frame` at a concrete input. -/
theorem bulk_status_merge_frame_witness :
    (mergeTasks
        [{ id := "a", status := "PENDING", progress := 0 },
         { id := "b", status := "COMPLETED", progress := 100 }]
        [{ id := "a", status := "COMPLETED", progress := 100 }]).length =
      ([{ id := "a", status := "PENDING", progress := 0 },
        { id := "b", status := "COMPLETED", progress := 100 }] : List DashTask).length ∧
    (mergeTasks
        [{ id := "a", status := "PENDING", progress := 0 },
         { id := "b", status := "COMPLETED", progress := 100 }]
        [{ id := "a", status := "COMPLETED", progress := 100 }]).map DashTask.id =
      ([{ id := "a", status := "PENDING", progress := 0 },
        { id := "b", status := "COMPLETED", progress := 100 }] : List DashTask).map
        DashTask.id ∧
    (∀ j : Nat,
      (∀ u ∈ ([{ id := "a", status := "COMPLETED", progress := 100 }] : List DashTask),
        ∀ t, ([{ id := "a", status := "PENDING", progress := 0 },
               { id := "b", status := "COMPLETED", progress := 100 }] :
                List DashTask)[j]? = some t → u.id ≠ t.id) →
      (mergeTasks
        [{ id := "a", status := "PENDING", progress := 0 },
         { id := "b", status := "COMPLETED", progress := 100 }]
        [{ id := "a", status := "COMPLETED", progress := 100 }])[j]? =
        ([{ id := "a", status := "PENDING", progress := 0 },
          { id := "b", status := "COMPLETED", progress := 100 }] :
            List DashTask)[j]?) ∧
    (∀ j : Nat,
      (mergeTasks
        [{ id := "a", status := "PENDING", progress := 0 },
         { id := "b", status := "COMPLETED", progress := 100 }]
        [{ id := "a", status := "COMPLETED", progress := 100 }])[j]? =
        ([{ id := "a", status := "PENDING", progress := 0 },
          { id := "b", status := "COMPLETED", progress := 100 }] :
            List DashTask)[j]? ∨
      ∃ u ∈ ([{ id := "a", status := "COMPLETED", progress := 100 }] : List DashTask),
        (mergeTasks
          [{ id := "a", status := "PENDING", progress := 0 },
           { id := "b", status := "COMPLETED", progress := 100 }]
          [{ id := "a", status := "COMPLETED", progress := 100 }])[j]? = some u) :=
  bulk_status_merge_frame
    [{ id := "a", status := "PENDING", progress := 0 },
     { id := "b", status := "COMPLETED", progress := 100 }]
    [{ id := "a", status := "COMPLETED", progress := 100 }]

/-! ## The dashboard polling state machine -/

/-- A status matched by the incomplete filter is not terminal. -/
theorem terminal_false_of_incomplete (st : String) (h : isIncompleteStatus st = true) :
    isTerminalStatus st = false := by
  unfold isIncompleteStatus at h
  simp only [Bool.or_eq_true, decide_eq_true_eq] at h
  rcases h with ((((rfl | rfl) | rfl) | rfl) | rfl) <;> rfl

/-- A terminal status is not matched by the incomplete filter. -/
theorem incomplete_false_of_terminal (st : String) (h : isTerminalStatus st = true) :
    isIncompleteStatus st = false := by
  unfold isTerminalStatus at h
  simp only [Bool.or_eq_true, decide_eq_true_eq] at h
  rcases h with rfl | rfl <;> rfl

/-- On the status enumeration of the data model, the incomplete filter is
exactly the complement of the terminal test. -/
theorem incomplete_eq_not_terminal (st : String) (hv : st ∈ validStatuses) :
    isIncompleteStatus st = !isTerminalStatus st := by
  simp only [validStatuses, List.mem_cons, List.not_mem_nil, or_false] at hv
  rcases hv with rfl | rfl | rfl | rfl | rfl | rfl | rfl <;> rfl

/-- With the incomplete filter empty, every task of a state with valid
statuses is terminal. -/
theorem all_terminal_of_filter_empty (s : DashboardState)
    (hval : ∀ t ∈ s.tasks, t.status ∈ validStatuses)
    (hfe : (s.tasks.filter (fun t => isIncompleteStatus t.status)).isEmpty = true) :
    ∀ t ∈ s.tasks, isTerminalStatus t.status = true := by
  rw [List.isEmpty_iff, List.filter_eq_nil_iff] at hfe
  intro t ht
  have h2 := hfe t ht
  rw [incomplete_eq_not_terminal t.status (hval t ht)] at h2
  simpa using h2

/-- With every task terminal, a dashboard tick issues no fetch and leaves
the interval cleared. -/
theorem tick_idle_of_all_terminal (st : DashboardState)
    (h : ∀ t ∈ st.tasks, isTerminalStatus t.status = true) :
    ∀ r : Option (List DashTask), (checkAndUpdateTasks st r).fetched = false ∧
      (checkAndUpdateTasks st r).state.pollingActive = false := by
  intro r
  have hfe : (st.tasks.filter (fun t => isIncompleteStatus t.status)).isEmpty = true := by
    rw [List.isEmpty_iff, List.filter_eq_nil_iff]
    intro a ha
    simp [incomplete_false_of_terminal a.status (h a ha)]
  unfold checkAndUpdateTasks
  simp [hfe]

/-- The resync effect never changes the task list. -/
theorem syncPollingEffect_tasks (st : DashboardState) :
    (syncPollingEffect st).tasks = st.tasks := by
  unfold syncPollingEffect
  by_cases h : (st.tasks.filter (fun t => !isTerminalStatus t.status)).isEmpty = true <;>
    simp [h]

/-- The resync effect schedules the interval exactly while a
non-terminal task remains. -/
theorem syncPollingEffect_active_iff (st : DashboardState) :
    (syncPollingEffect st).pollingActive = true ↔
      ∃ t ∈ st.tasks, isTerminalStatus t.status = false := by
  unfold syncPollingEffect
  cases hfe : (st.tasks.filter (fun t => !isTerminalStatus t.status)).isEmpty with
  | true =>
      simp only [hfe, if_true]
      rw [List.isEmpty_iff, List.filter_eq_nil_iff] at hfe
      constructor
      · intro h
        cases h
      · rintro ⟨t, ht, hf⟩
        have h2 := hfe t ht
        rw [hf] at h2
        simp at h2
  | false =>
      simp only [hfe, Bool.false_eq_true, if_false]
      refine ⟨fun _ => ?_, fun _ => trivial⟩
      obtain ⟨t, htf⟩ := List.exists_mem_of_ne_nil _ (List.isEmpty_eq_false.mp hfe)
      exact ⟨t, List.mem_of_mem_filter htf, by simpa using List.of_mem_filter htf⟩

/-- With every task terminal, the resync effect leaves polling off. -/
theorem sync_inactive_of_all_terminal (st : DashboardState)
    (h : ∀ t ∈ st.tasks, isTerminalStatus t.status = true) :
    (syncPollingEffect st).pollingActive = false := by
  cases hb : (syncPollingEffect st).pollingActive with
  | false => rfl
  | true =>
      obtain ⟨t, ht, hf⟩ := (syncPollingEffect_active_iff st).mp hb
      rw [h t ht] at hf
      cases hf

/-- Merging a response that is all-terminal and covers every non-terminal
task yields an all-terminal task list (ids assumed pairwise distinct). -/
theorem mergeTasks_all_terminal (prev data : List DashTask)
    (hnodup : (prev.map DashTask.id).Nodup)
    (hdata : ∀ u ∈ data, isTerminalStatus u.status = true)
    (hcov : ∀ t ∈ prev, isTerminalStatus t.status = false → ∃ u ∈ data, u.id = t.id) :
    ∀ t ∈ mergeTasks prev data, isTerminalStatus t.status = true := by
  intro t htm
  obtain ⟨j, hj⟩ := List.getElem?_of_mem htm
  have hjlen : j < prev.length := by
    by_contra hge
    rw [List.getElem?_eq_none_iff.mpr (by rw [mergeTasks_length]; omega)] at hj
    cases hj
  have ht0 : prev[j]? = some prev[j] := List.getElem?_eq_getElem hjlen
  cases hterm : isTerminalStatus prev[j].status with
  | true =>
      rcases mergeTasks_getElem?_cases prev data j with h | ⟨v, hv, he⟩
      · have he2 := Option.some.inj (ht0.symm.trans (h.symm.trans hj))
        rw [← he2]
        exact hterm
      · have he2 := Option.some.inj (he.symm.trans hj)
        rw [← he2]
        exact hdata v hv
  | false =>
      obtain ⟨v, hv, he⟩ := mergeTasks_getElem?_covered prev data j hnodup prev[j] ht0
        (hcov prev[j] (List.getElem?_mem ht0) hterm)
      have he2 := Option.some.inj (he.symm.trans hj)
      rw [← he2]
      exact hdata v hv

/-- Claim C1: dashboard polling stops exactly when every tracked task is
terminal — a tick fetches exactly while some task is non-terminal; with
all tasks terminal a tick fetches nothing and clears the interval; the
tasks-change effect keeps the interval scheduled exactly while a
non-terminal task remains; and a bulk-status response that is
all-terminal and covers every non-terminal task leaves the interval
cleared with no further fetch scheduled. -/
theorem polling_stops_iff_all_terminal (s : DashboardState) (data : List DashTask)
    (hval : ∀ t ∈ s.tasks, t.status ∈ validStatuses) :
    (∀ r : Option (List DashTask), (checkAndUpdateTasks s r).fetched = true ↔
      ∃ t ∈ s.tasks, isTerminalStatus t.status = false) ∧
    ((∀ t ∈ s.tasks, isTerminalStatus t.status = true) →
      ∀ r : Option (List DashTask), (checkAndUpdateTasks s r).fetched = false ∧
        (checkAndUpdateTasks s r).state.pollingActive = false) ∧
    (∀ st : DashboardState, (syncPollingEffect st).pollingActive = true ↔
      ∃ t ∈ st.tasks, isTerminalStatus t.status = false) ∧
    ((s.tasks.map DashTask.id).Nodup →
      (∀ u ∈ data, isTerminalStatus u.status = true) →
      (∀ t ∈ s.tasks, isTerminalStatus t.status = false → ∃ u ∈ data, u.id = t.id) →
      (checkAndUpdateTasks s (some data)).state.pollingActive = false ∧
      (syncPollingEffect (checkAndUpdateTasks s (some data)).state).pollingActive
        = false ∧
      ∀ r : Option (List DashTask),
        (checkAndUpdateTasks (syncPollingEffect
          (checkAndUpdateTasks s (some data)).state) r).fetched = false) := by
  refine ⟨?_, ?_, syncPollingEffect_active_iff, ?_⟩
  · intro r
    cases hfe : (s.tasks.filter (fun t => isIncompleteStatus t.status)).isEmpty with
    | true =>
        have hall := all_terminal_of_filter_empty s hval hfe
        have hfetch : (checkAndUpdateTasks s r).fetched = false :=
          (tick_idle_of_all_terminal s hall r).1
        rw [hfetch]
        constructor
        · intro h
          cases h
        · rintro ⟨t, ht, hf⟩
          rw [hall t ht] at hf
          cases hf
    | false =>
        have hfetch : (checkAndUpdateTasks s r).fetched = true := by
          unfold checkAndUpdateTasks
          rw [if_neg (by simp [hfe])]
          cases r with
          | none => rfl
          | some d =>
              dsimp only
              split <;> rfl
        rw [hfetch]
        refine ⟨fun _ => ?_, fun _ => rfl⟩
        obtain ⟨t, htf⟩ := List.exists_mem_of_ne_nil _ (List.isEmpty_eq_false.mp hfe)
        exact ⟨t, List.mem_of_mem_filter htf,
          terminal_false_of_incomplete t.status
            (by simpa using List.of_mem_filter htf)⟩
  · intro hall r
    exact tick_idle_of_all_terminal s hall r
  · intro hnodup hdata hcov
    cases hfe : (s.tasks.filter (fun t => isIncompleteStatus t.status)).isEmpty with
    | true =>
        have hall := all_terminal_of_filter_empty s hval hfe
        have hstate : (checkAndUpdateTasks s (some data)).state =
            { s with hasIncompleteTask := false, pollingActive := false } := by
          unfold checkAndUpdateTasks
          simp [hfe]
        refine ⟨by rw [hstate], ?_, ?_⟩
        · apply sync_inactive_of_all_terminal
          rw [hstate]
          exact hall
        · intro r
          refine (tick_idle_of_all_terminal _ ?_ r).1
          rw [syncPollingEffect_tasks, hstate]
          exact hall
    | false =>
        have hac : data.all (fun t => isTerminalStatus t.status) = true :=
          List.all_eq_true.mpr (fun u hu => hdata u hu)
        have hstate : (checkAndUpdateTasks s (some data)).state =
            { tasks := mergeTasks s.tasks data, hasIncompleteTask := false,
              pollingActive := false } := by
          unfold checkAndUpdateTasks
          rw [if_neg (by simp [hfe])]
          dsimp only
          split
          · rfl
          · next h => exact absurd hac h
        have hmerged := mergeTasks_all_terminal s.tasks data hnodup hdata hcov
        refine ⟨by rw [hstate], ?_, ?_⟩
        · apply sync_inactive_of_all_terminal
          rw [hstate]
          exact hmerged
        · intro r
          refine (tick_idle_of_all_terminal _ ?_ r).1
          rw [syncPollingEffect_tasks, hstate]
          exact hmerged

/-- Witness for `polling_stops_iff_all_terminal` at a concrete input. -/
theorem polling_stops_iff_all_terminal_witness :
    (∀ t ∈ ({ tasks := [{ id := "a", status := "PENDING", progress := 0 }],
              hasIncompleteTask := true,
              pollingActive := true } : DashboardState).tasks,
      t.status ∈ validStatuses) ∧
    ((∀ r : Option (List DashTask),
      (checkAndUpdateTasks
        { tasks := [{ id := "a", status := "PENDING", progress := 0 }],
          hasIncompleteTask := true, pollingActive := true } r).fetched = true ↔
      ∃ t ∈ ({ tasks := [{ id := "a", status := "PENDING", progress := 0 }],
               hasIncompleteTask := true,
               pollingActive := true } : DashboardState).tasks,
        isTerminalStatus t.status = false) ∧
    ((∀ t ∈ ({ tasks := [{ id := "a", status := "PENDING", progress := 0 }],
               hasIncompleteTask := true,
               pollingActive := true } : DashboardState).tasks,
        isTerminalStatus t.status = true) →
      ∀ r : Option (List DashTask),
        (checkAndUpdateTasks
          { tasks := [{ id := "a", status := "PENDING", progress := 0 }],
            hasIncompleteTask := true, pollingActive := true } r).fetched = false ∧
        (checkAndUpdateTasks
          { tasks := [{ id := "a", status := "PENDING", progress := 0 }],
            hasIncompleteTask := true,
            pollingActive := true } r).state.pollingActive = false) ∧
    (∀ st : DashboardState, (syncPollingEffect st).pollingActive = true ↔
      ∃ t ∈ st.tasks, isTerminalStatus t.status = false) ∧
    ((([{ id := "a", status := "PENDING", progress := 0 }] :
        List DashTask).map DashTask.id).Nodup →
      (∀ u ∈ ([{ id := "a", status := "COMPLETED", progress := 100 }] : List DashTask),
        isTerminalStatus u.status = true) →
      (∀ t ∈ ({ tasks := [{ id := "a", status := "PENDING", progress := 0 }],
                hasIncompleteTask := true,
                pollingActive := true } : DashboardState).tasks,
        isTerminalStatus t.status = false →
          ∃ u ∈ ([{ id := "a", status := "COMPLETED", progress := 100 }] :
            List DashTask), u.id = t.id) →
      (checkAndUpdateTasks
        { tasks := [{ id := "a", status := "PENDING", progress := 0 }],
          hasIncompleteTask := true, pollingActive := true }
        (some [{ id := "a", status := "COMPLETED",
                 progress := 100 }])).state.pollingActive = false ∧
      (syncPollingEffect (checkAndUpdateTasks
        { tasks := [{ id := "a", status := "PENDING", progress := 0 }],
          hasIncompleteTask := true, pollingActive := true }
        (some [{ id := "a", status := "COMPLETED",
                 progress := 100 }])).state).pollingActive = false ∧
      ∀ r : Option (List DashTask),
        (checkAndUpdateTasks (syncPollingEffect (checkAndUpdateTasks
          { tasks := [{ id := "a", status := "PENDING", progress := 0 }],
            hasIncompleteTask := true, pollingActive := true }
          (some [{ id := "a", status := "COMPLETED",
                   progress := 100 }])).state) r).fetched = false)) :=
  ⟨by decide,
   polling_stops_iff_all_terminal
     { tasks := [{ id := "a", status := "PENDING", progress := 0 }],
       hasIncompleteTask := true, pollingActive := true }
     [{ id := "a", status := "COMPLETED", progress := 100 }]
     (by decide)⟩

end VideoStudio
